import Mathlib

/-!
Shallow embedding of `src/service/notifications.ts` (the `NotificationsService`
class of the ags notification daemon) and proofs about its notification
registry, id allocation, urgency decoding, actions parsing, persistence
round-trip and lifecycle operations.

External effects (D-Bus signal emission, in-process event emission, timer
scheduling and cache-file writes) are modelled as an explicit event trace;
filesystem existence tests are passed in as a function `String → Bool`;
the current time is passed in as an integer.
-/

namespace Ags

/-- The `action` interface: `{ id: string, label: string }`.  The label is
modelled as `Option String` because the JS code can store `undefined` there
(reading `acts[i + 1]` past the end of the array). -/
structure action where
  id : String
  label : Option String
deriving DecidableEq, Repr

/-- The `image-data` hint payload, a `(iiibiiay)` variant:
width, height, rowstride, has-alpha, bits-per-sample, channels, pixel bytes. -/
structure ImageData where
  width : Int
  height : Int
  rowstride : Int
  hasAlpha : Bool
  bitsPerSample : Int
  channels : Int
  pixels : List Nat
deriving DecidableEq, Repr

/-- The recognized `hints` keys: `image-data`, `desktop-entry`, `urgency`.
Absent keys are `none`; the urgency byte is a `Nat`. -/
structure Hints where
  imageData : Option ImageData
  desktopEntry : Option String
  urgency : Option Nat
deriving DecidableEq, Repr

/-- The `Notification` interface of the source. `urgency` is `Option String`
because indexing `_URGENCY` out of range yields `undefined` in JS. -/
structure Notification where
  id : Nat
  appName : String
  appEntry : Option String
  appIcon : String
  summary : String
  body : String
  actions : List action
  urgency : Option String
  time : Int
  image : Option String
  popup : Bool
deriving DecidableEq, Repr

/-- `const _URGENCY = ['low', 'normal', 'critical'];` -/
def _URGENCY : List String := ["low", "normal", "critical"]

/-- `_URGENCY[hints['urgency']?.unpack() || 1]`: an absent hint unpacks to
`undefined` and `undefined || 1` is `1`; the byte `0` is falsy in JS so
`0 || 1` is also `1`; indexing past the array yields `undefined` (`none`). -/
def decodeUrgency (hint : Option Nat) : Option String :=
  _URGENCY[(match hint with
    | none => 1
    | some v => if v = 0 then 1 else v : Nat)]?

/-- The actions loop of `Notify`: iterate `i` by 2, and push
`{ label: acts[i + 1], id: acts[i] }` whenever `acts[i + 1] !== ''`.
On an odd-length list `acts[i + 1]` is `undefined`, which is `!== ''`,
so the trailing id is pushed with an `undefined` label. -/
def parseActions : List String → List action
  | [] => []
  | [a] => [{ id := a, label := none }]
  | a :: l :: rest =>
    if l = "" then parseActions rest
    else { id := a, label := some l } :: parseActions rest

/-- `name.replace(/[^a-zA-Z0-9]/g, '')` of `_parseImage`. -/
def stripNonAlnum (s : String) : String :=
  ⟨s.data.filter Char.isAlphanum⟩

/-- `_parseImage(name, image_data)`: `null` when the hint is absent, else the
filename derived from `name` with non-alphanumeric characters stripped (the
pixel decode/encode and stream write are delegated to external collaborators
and do not affect the returned reference). -/
def _parseImage (name : String) (image_data : Option ImageData) : Option String :=
  match image_data with
  | none => none
  | some _ => some (stripNonAlnum name)

/-- `_isFile(path)`: the path itself when `GLib.file_test(path, EXISTS)`
holds, else `null`; the filesystem is abstracted by `fileExists`. -/
def _isFile (fileExists : String → Bool) (path : String) : Option String :=
  if fileExists path then some path else none

/-- JS `a || b` on nullable strings: `null` and the empty string are falsy. -/
def jsOrStr : Option String → Option String → Option String
  | some s, b => if s = "" then b else some s
  | none, b => b

/-- JS `Map` as an insertion-ordered association list. -/
def NMap : Type := List (Nat × Notification)

instance : DecidableEq NMap := by unfold NMap; infer_instance

instance : Repr NMap := by unfold NMap; infer_instance

/-- `Map.prototype.get`. -/
def mapGet : NMap → Nat → Option Notification
  | [], _ => none
  | (k, v) :: rest, k' => if k = k' then some v else mapGet rest k'

/-- `Map.prototype.has`. -/
def mapHas (m : NMap) (k : Nat) : Bool :=
  (mapGet m k).isSome

/-- `Map.prototype.set`: update in place when the key is present (keeping
insertion order), else append at the end. -/
def mapSet : NMap → Nat → Notification → NMap
  | [], k, v => [(k, v)]
  | (k', v') :: rest, k, v =>
    if k' = k then (k, v) :: rest else (k', v') :: mapSet rest k v

/-- `Map.prototype.delete` (keys are unique in a JS `Map`, so removing every
entry with the key is the same as removing the one entry). -/
def mapDelete (m : NMap) (k : Nat) : NMap :=
  m.filter (fun p => p.1 ≠ k)

/-- One record as written by `_cache`: `{ ...notification, action: [], popup: false }`.
The spread keeps every `Notification` field (including `actions`), `popup` is
overwritten to `false`, and a separate field named `action` (not `actions`)
is added and set to the empty list. -/
structure CachedRecord where
  record : Notification
  action : List action
deriving DecidableEq, Repr

/-- `_cache()`: serialize every live record as a `CachedRecord` (the JSON
written to `NOTIFICATIONS_CACHE_PATH + '/notifications.json'`). -/
def _cache (m : NMap) : List CachedRecord :=
  m.map (fun p => { record := { p.2 with popup := false }, action := [] })

/-- `JSON.parse(file) as Notification[]`: reading a cached record back as a
`Notification` sees exactly the `Notification`-typed fields (the spurious
`action` field is never read). -/
def parseCached (c : CachedRecord) : Notification :=
  c.record

/-- The event trace: D-Bus signals, in-process `emit` events, the timer
scheduled by `timeout`, and cache-file writes. -/
inductive Event where
  | notificationClosed (id reason : Nat)
  | actionInvoked (id : Nat) (actionId : String)
  | notified (id : Nat)
  | dismissed (id : Nat)
  | closed (id : Nat)
  | changed
  | timerScheduled (ms : Nat) (id : Nat)
  | cacheWrite (records : List CachedRecord)
deriving DecidableEq, Repr

/-- The mutable fields of `NotificationsService` that the lifecycle
operations read or write. -/
structure NState where
  _notifications : NMap
  _dnd : Bool
  _idCount : Nat
  _timeout : Nat
deriving DecidableEq, Repr

/-- The state right after `this._notifications = new Map()` in the
constructor, before `_readFromFile` runs; `_timeout` is
`getConfig()?.notificationPopupTimeout || 3000`. -/
def freshState (timeoutMs : Nat) : NState :=
  { _notifications := [], _dnd := false, _idCount := 0, _timeout := timeoutMs }

/-- One iteration of the `forEach` in `_readFromFile`:
`if (n.id > this._idCount) this._idCount = n.id + 1;` then
`this._notifications.set(n.id, n)`. -/
def loadRecord (s : NState) (n : Notification) : NState :=
  { s with
    _idCount := if n.id > s._idCount then n.id + 1 else s._idCount,
    _notifications := mapSet s._notifications n.id n }

/-- `_readFromFile()` on a present, well-formed cache file whose parsed
content is `records` (a missing or empty file returns early with no events). -/
def _readFromFile (records : List Notification) (s : NState) : NState × List Event :=
  (records.foldl loadRecord s, [Event.changed])

/-- The record object built and stored by `Notify` for a given resolved id. -/
def buildRecord (fileExists : String → Bool) (now : Int)
    (appName : String) (appIcon summary body : String)
    (acts : List String) (hints : Hints) (id : Nat) (dnd : Bool) : Notification :=
  { id := id
    appName := appName
    appEntry := hints.desktopEntry
    appIcon := appIcon
    summary := summary
    body := body
    actions := parseActions acts
    urgency := decodeUrgency hints.urgency
    time := now
    image := jsOrStr (_parseImage (summary ++ toString id) hints.imageData)
                     (_isFile fileExists appIcon)
    popup := !dnd }

/-- The result of `Notify`: the new service state, the emitted events in
order, and the returned id. -/
structure NotifyResult where
  state : NState
  events : List Event
  ret : Nat
deriving Repr

/-- `Notify(appName, replacesId, appIcon, summary, body, acts, hints)`:
`const id = replacesId || this._idCount++` (the counter advances only when
`replacesId` is `0`), store the built record under `id`, schedule the
auto-dismiss timer, persist via `_cache`, emit `notified` then `changed`,
and return `id`. -/
def Notify (fileExists : String → Bool) (now : Int)
    (appName : String) (replacesId : Nat) (appIcon summary body : String)
    (acts : List String) (hints : Hints) (s : NState) : NotifyResult :=
  let id := if replacesId ≠ 0 then replacesId else s._idCount
  let idCount := if replacesId ≠ 0 then s._idCount else s._idCount + 1
  let n := buildRecord fileExists now appName appIcon summary body acts hints id s._dnd
  let m := mapSet s._notifications id n
  { state := { s with _notifications := m, _idCount := idCount }
    events := [Event.timerScheduled s._timeout id,
               Event.cacheWrite (_cache m),
               Event.notified id,
               Event.changed]
    ret := id }

/-- `DismissNotification(id)`: return silently when the id is absent, else
set the record's `popup` to `false` (in place) and emit `dismissed` and
`changed`; no cache write. -/
def DismissNotification (id : Nat) (s : NState) : NState × List Event :=
  match mapGet s._notifications id with
  | none => (s, [])
  | some n =>
    ({ s with _notifications := mapSet s._notifications id { n with popup := false } },
     [Event.dismissed id, Event.changed])

/-- `CloseNotification(id)`: return silently when the id is absent, else emit
the `NotificationClosed(id, 3)` D-Bus signal, delete the record, emit
`closed` and `changed`, and persist via `_cache`. -/
def CloseNotification (id : Nat) (s : NState) : NState × List Event :=
  if mapHas s._notifications id then
    let m := mapDelete s._notifications id
    ({ s with _notifications := m },
     [Event.notificationClosed id 3, Event.closed id, Event.changed,
      Event.cacheWrite (_cache m)])
  else (s, [])

/-- `InvokeAction(id, actionId)`: return silently when the id is absent, else
emit the `ActionInvoked(id, actionId)` D-Bus signal, run
`CloseNotification(id)`, then call `_cache()` once more. -/
def InvokeAction (id : Nat) (actionId : String) (s : NState) : NState × List Event :=
  if mapHas s._notifications id then
    let r := CloseNotification id s
    (r.1, Event.actionInvoked id actionId :: r.2 ++
          [Event.cacheWrite (_cache r.1._notifications)])
  else (s, [])

/-- Arguments of one `Notify` call other than `replacesId` (the external
collaborators `fileExists` and `now` included). -/
structure NotifyArgs where
  fileExists : String → Bool
  now : Int
  appName : String
  appIcon : String
  summary : String
  body : String
  acts : List String
  hints : Hints

/-- Run a sequence of `Notify` calls all made with `replacesId = 0`,
collecting the returned ids in call order. -/
def runNotifyZeros : List NotifyArgs → NState → NState × List Nat
  | [], s => (s, [])
  | a :: rest, s =>
    ((runNotifyZeros rest
        (Notify a.fileExists a.now a.appName 0 a.appIcon a.summary a.body a.acts a.hints s).state).1,
     (Notify a.fileExists a.now a.appName 0 a.appIcon a.summary a.body a.acts a.hints s).ret ::
       (runNotifyZeros rest
         (Notify a.fileExists a.now a.appName 0 a.appIcon a.summary a.body a.acts a.hints s).state).2)

/-- Specification-level pairing of a flat actions list into
(id, optional label) pairs: consecutive elements are paired and an odd
trailing id is paired with a missing label. -/
def pairUp : List String → List (String × Option String)
  | [] => []
  | [a] => [(a, none)]
  | a :: l :: rest => (a, some l) :: pairUp rest

/-- Specification-level conversion of one (id, optional label) pair:
a pair with label `""` is dropped, a pair with a missing label is kept as an
action with a missing label. -/
def pairToAction (p : String × Option String) : Option action :=
  match p.2 with
  | some l => if l = "" then none else some { id := p.1, label := some l }
  | none => some { id := p.1, label := none }

/-- A filesystem on which no path exists (for concrete evaluations). -/
def noFile : String → Bool := fun _ => false

/-- Hints with every recognized key absent. -/
def emptyHints : Hints := { imageData := none, desktopEntry := none, urgency := none }

/-- A concrete notification record used in concrete evaluations. -/
def sampleRecord : Notification :=
  { id := 5, appName := "App", appEntry := none, appIcon := "icon", summary := "Hi",
    body := "body", actions := [{ id := "a1", label := some "Open" }],
    urgency := some "normal", time := 100, image := none, popup := true }

/-- A state after loading a persisted record whose id is `0` into a fresh
registry (the id-allocation counter starts at `0`). -/
def c3State : NState :=
  (_readFromFile [{ sampleRecord with id := 0, popup := false }] (freshState 3000)).1

/-- A concrete state holding one live record under id `1`. -/
def oneRecState : NState :=
  { _notifications := [(1, { sampleRecord with id := 1 })],
    _dnd := false, _idCount := 2, _timeout := 3000 }

/-- First call of the collision sequence: `Notify` with caller-chosen
`replacesId = 1` on a fresh registry (counter `0`). -/
def c10r1 : NotifyResult :=
  Notify noFile 0 "A" 1 "i1" "S1" "b1" [] emptyHints (freshState 3000)

/-- Second call: `replacesId = 0`; allocates id `0`, counter becomes `1`. -/
def c10r2 : NotifyResult :=
  Notify noFile 0 "B" 0 "i2" "S2" "b2" [] emptyHints c10r1.state

/-- Third call: `replacesId = 0`; allocates id `1`, colliding with the
caller-supplied id of the first call. -/
def c10r3 : NotifyResult :=
  Notify noFile 0 "C" 0 "i3" "S3" "b3" [] emptyHints c10r2.state

theorem mapGet_mapSet_self (m : NMap) (k : Nat) (v : Notification) :
    mapGet (mapSet m k v) k = some v := by
  induction m with
  | nil => simp [mapSet, mapGet]
  | cons p rest ih =>
    obtain ⟨a, b⟩ := p
    by_cases h : a = k
    · simp [mapSet, h, mapGet]
    · simp [mapSet, h, mapGet, ih]

theorem mapGet_mapSet_ne (m : NMap) (k k' : Nat) (v : Notification) (h : k' ≠ k) :
    mapGet (mapSet m k v) k' = mapGet m k' := by
  induction m with
  | nil => simp [mapSet, mapGet, Ne.symm h]
  | cons p rest ih =>
    obtain ⟨a, b⟩ := p
    by_cases ha : a = k
    · subst ha
      simp [mapSet, mapGet, Ne.symm h]
    · by_cases ha' : a = k'
      · simp [mapSet, mapGet, ha, ha', h]
      · simp [mapSet, mapGet, ha, ha', ih]

theorem mapGet_mapDelete_self (m : NMap) (k : Nat) :
    mapGet (mapDelete m k) k = none := by
  induction m with
  | nil => rfl
  | cons p rest ih =>
    obtain ⟨a, b⟩ := p
    by_cases h : a = k
    · simpa [mapDelete, h] using ih
    · simpa [mapDelete, mapGet, h] using ih

theorem mapGet_eq_none_of_absent (m : NMap) (k : Nat) (h : mapHas m k = false) :
    mapGet m k = none := by
  unfold mapHas at h
  cases hm : mapGet m k with
  | none => rfl
  | some v => rw [hm] at h; simp at h

theorem close_state_get_self (id : Nat) (s : NState) :
    mapGet ((CloseNotification id s).1)._notifications id = none := by
  unfold CloseNotification
  by_cases h : mapHas s._notifications id
  · simp [h, mapGet_mapDelete_self]
  · simp only [Bool.not_eq_true] at h
    simp [h, mapGet_eq_none_of_absent s._notifications id h]

theorem dismiss_absent (id : Nat) (s : NState) (h : mapHas s._notifications id = false) :
    DismissNotification id s = (s, []) := by
  unfold DismissNotification
  rw [mapGet_eq_none_of_absent s._notifications id h]

theorem close_absent (id : Nat) (s : NState) (h : mapHas s._notifications id = false) :
    CloseNotification id s = (s, []) := by
  unfold CloseNotification
  simp [h]

theorem invoke_absent (id : Nat) (aid : String) (s : NState)
    (h : mapHas s._notifications id = false) :
    InvokeAction id aid s = (s, []) := by
  unfold InvokeAction
  simp [h]

theorem close_state_has_self_false (id : Nat) (s : NState) :
    mapHas ((CloseNotification id s).1)._notifications id = false := by
  unfold mapHas
  rw [close_state_get_self]
  rfl

theorem notify_zero_ret (fe : String → Bool) (now : Int) (an ai su bo : String)
    (acts : List String) (hints : Hints) (s : NState) :
    (Notify fe now an 0 ai su bo acts hints s).ret = s._idCount := by
  simp [Notify]

theorem notify_zero_idCount (fe : String → Bool) (now : Int) (an ai su bo : String)
    (acts : List String) (hints : Hints) (s : NState) :
    (Notify fe now an 0 ai su bo acts hints s).state._idCount = s._idCount + 1 := by
  simp [Notify]

theorem runNotifyZeros_lower (calls : List NotifyArgs) :
    ∀ (s : NState) (x : Nat), x ∈ (runNotifyZeros calls s).2 → s._idCount ≤ x := by
  induction calls with
  | nil => intro s x hx; simp [runNotifyZeros] at hx
  | cons a rest ih =>
    intro s x hx
    simp only [runNotifyZeros, List.mem_cons, notify_zero_ret] at hx
    rcases hx with h | h
    · omega
    · have hle := ih _ x h
      rw [notify_zero_idCount] at hle
      omega

theorem runNotifyZeros_pairwise (calls : List NotifyArgs) (s : NState) :
    List.Pairwise (· < ·) (runNotifyZeros calls s).2 := by
  induction calls generalizing s with
  | nil => simp [runNotifyZeros]
  | cons a rest ih =>
    simp only [runNotifyZeros]
    refine List.Pairwise.cons ?_ (ih _)
    intro y hy
    have hle := runNotifyZeros_lower rest _ y hy
    rw [notify_zero_idCount] at hle
    rw [notify_zero_ret]
    omega

theorem parseActions_eq_pairs : ∀ acts, parseActions acts = (pairUp acts).filterMap pairToAction
  | [] => rfl
  | [_] => rfl
  | a :: l :: rest => by
    by_cases h : l = ""
    · simp [parseActions, pairUp, pairToAction, h, List.filterMap_cons, parseActions_eq_pairs rest]
    · simp [parseActions, pairUp, pairToAction, h, List.filterMap_cons, parseActions_eq_pairs rest]

/-- C1: the claim says the persistence round-trip clears `actions`, but
`_cache` writes `{ ...notification, action: [], popup: false }` — the field
set to `[]` is the misspelled `action`, while the spread keeps the original
`actions` — so a record with a non-empty actions list is reloaded with its
actions intact; only the popup flag is forced false.  Evaluation at the
failing input: caching a registry holding `sampleRecord` (one action) and
reloading into a fresh registry restores the record with its action list
non-empty. -/
theorem C1_roundTrip_keeps_actions :
    mapGet ((_readFromFile ((_cache [(5, sampleRecord)]).map parseCached)
        (freshState 3000)).1)._notifications 5
      = some { sampleRecord with popup := false } ∧
    ({ sampleRecord with popup := false } : Notification).actions
      = [{ id := "a1", label := some "Open" }] ∧
    ({ sampleRecord with popup := false } : Notification).actions ≠ [] := by
  refine ⟨rfl, rfl, ?_⟩
  decide

/-- C2: the claim says an urgency hint byte of `0` decodes to `"low"` and an
out-of-range byte decodes to `"normal"`; the code computes
`_URGENCY[hint || 1]`, and in JS both `undefined || 1` and `0 || 1` are `1`,
so byte `0` decodes to `"normal"` (never `"low"`), while a byte `≥ 3`
indexes past the array and yields `undefined`. -/
theorem C2_urgency_zero_decodes_normal :
    decodeUrgency (some 0) = some "normal" ∧
    decodeUrgency (some 0) ≠ some "low" ∧
    decodeUrgency none = some "normal" ∧
    decodeUrgency (some 1) = some "normal" ∧
    decodeUrgency (some 2) = some "critical" ∧
    decodeUrgency (some 3) = none := by
  refine ⟨rfl, ?_, rfl, rfl, rfl, rfl⟩
  decide

/-- C3: the claim says the counter is advanced strictly past every loaded id;
`_readFromFile` advances only when `n.id > this._idCount` (strict), so
loading a record whose id equals the current counter (here id `0` into a
fresh registry) leaves the counter at `0`, and the next `Notify` with
`replacesId = 0` returns id `0`, colliding with the restored record. -/
theorem C3_restored_id_collision :
    c3State._idCount = 0 ∧
    mapHas c3State._notifications 0 = true ∧
    (Notify noFile 0 "App" 0 "icon" "Hi" "body" [] emptyHints c3State).ret = 0 := by
  refine ⟨rfl, rfl, rfl⟩

/-- C4 counterexample: the claim says an odd trailing unmatched id is
silently dropped, so `parseActions ["x"]` would be `[]`; the loop tests
`acts[i + 1] !== ''`, which holds of `undefined`, so the trailing id is kept
as an action with a missing label. -/
theorem C4_odd_trailing_not_dropped :
    parseActions ["x"] = [{ id := "x", label := none }] ∧
    parseActions ["x"] ≠ [] := by
  refine ⟨rfl, ?_⟩
  decide

/-- C4 (amended): the stored actions pair consecutive elements of the flat
list, pairs whose label is the empty string are dropped, and an odd-length
input keeps the trailing unmatched id as an action with a missing label;
input `["a1", "Open", "a2", ""]` yields exactly the single action
`{id := "a1", label := "Open"}`. -/
theorem C4_actions_pairing (acts : List String) :
    parseActions acts = (pairUp acts).filterMap pairToAction ∧
    parseActions ["a1", "Open", "a2", ""] = [{ id := "a1", label := some "Open" }] :=
  ⟨parseActions_eq_pairs acts, rfl⟩

/-- C5: a `Notify` call whose `replacesId` is nonzero and matches a live id
returns that id, leaves the allocation counter (and the dnd flag and
timeout) unchanged, stores the freshly built record under that id (fields
fully replaced), and leaves every other registry entry unchanged. -/
theorem C5_replacement (s : NState) (rid : Nat) (fe : String → Bool) (now : Int)
    (an ai su bo : String) (acts : List String) (hints : Hints)
    (_hlive : mapHas s._notifications rid = true) (hrid : rid ≠ 0) :
    (Notify fe now an rid ai su bo acts hints s).ret = rid ∧
    (Notify fe now an rid ai su bo acts hints s).state._idCount = s._idCount ∧
    mapGet (Notify fe now an rid ai su bo acts hints s).state._notifications rid
      = some (buildRecord fe now an ai su bo acts hints rid s._dnd) ∧
    (∀ k, k ≠ rid →
      mapGet (Notify fe now an rid ai su bo acts hints s).state._notifications k
        = mapGet s._notifications k) ∧
    (Notify fe now an rid ai su bo acts hints s).state._dnd = s._dnd ∧
    (Notify fe now an rid ai su bo acts hints s).state._timeout = s._timeout := by
  refine ⟨?_, ?_, ?_, ?_, ?_, ?_⟩ <;>
    simp only [Notify, hrid, if_pos, ne_eq, not_false_eq_true, if_true, reduceIte]
  · exact mapGet_mapSet_self _ _ _
  · intro k hk
    exact mapGet_mapSet_ne _ _ _ _ hk

/-- Witness for C5 at a concrete state with a live record under id `1`. -/
theorem C5_replacement_witness :
    (Notify noFile 0 "App" 1 "i" "S" "b" [] emptyHints oneRecState).ret = 1 ∧
    (Notify noFile 0 "App" 1 "i" "S" "b" [] emptyHints oneRecState).state._idCount
      = oneRecState._idCount ∧
    mapGet (Notify noFile 0 "App" 1 "i" "S" "b" [] emptyHints oneRecState).state._notifications 1
      = some (buildRecord noFile 0 "App" "i" "S" "b" [] emptyHints 1 oneRecState._dnd) ∧
    (∀ k, k ≠ 1 →
      mapGet (Notify noFile 0 "App" 1 "i" "S" "b" [] emptyHints oneRecState).state._notifications k
        = mapGet oneRecState._notifications k) ∧
    (Notify noFile 0 "App" 1 "i" "S" "b" [] emptyHints oneRecState).state._dnd
      = oneRecState._dnd ∧
    (Notify noFile 0 "App" 1 "i" "S" "b" [] emptyHints oneRecState).state._timeout
      = oneRecState._timeout :=
  C5_replacement oneRecState 1 noFile 0 "App" "i" "S" "b" [] emptyHints rfl (by decide)

/-- C6: over any sequence of `Notify` calls all made with `replacesId = 0`,
the sequence of returned ids is strictly increasing, hence has no
duplicates. -/
theorem C6_ids_strictly_increasing (calls : List NotifyArgs) (s : NState) :
    List.Pairwise (· < ·) (runNotifyZeros calls s).2 ∧
    (runNotifyZeros calls s).2.Nodup :=
  ⟨runNotifyZeros_pairwise calls s,
   List.Pairwise.imp Nat.ne_of_lt (runNotifyZeros_pairwise calls s)⟩

/-- C7: for a live id, `InvokeAction(id, actionId)` emits the
`ActionInvoked(id, actionId)` signal first and then produces exactly the
state `CloseNotification(id)` would produce (followed by Close's own events
and one extra cache write); in particular the record is absent afterward. -/
theorem C7_invoke_equiv_close (s : NState) (id : Nat) (aid : String)
    (h : mapHas s._notifications id = true) :
    (InvokeAction id aid s).1 = (CloseNotification id s).1 ∧
    (InvokeAction id aid s).2 =
      Event.actionInvoked id aid :: (CloseNotification id s).2
        ++ [Event.cacheWrite (_cache ((CloseNotification id s).1)._notifications)] ∧
    mapGet ((InvokeAction id aid s).1)._notifications id = none := by
  refine ⟨?_, ?_, ?_⟩ <;> simp only [InvokeAction, h, if_true, reduceIte]
  exact close_state_get_self id s

/-- Witness for C7 at a concrete state with a live record under id `1`. -/
theorem C7_invoke_equiv_close_witness :
    (InvokeAction 1 "default" oneRecState).1 = (CloseNotification 1 oneRecState).1 ∧
    (InvokeAction 1 "default" oneRecState).2 =
      Event.actionInvoked 1 "default" :: (CloseNotification 1 oneRecState).2
        ++ [Event.cacheWrite (_cache ((CloseNotification 1 oneRecState).1)._notifications)] ∧
    mapGet ((InvokeAction 1 "default" oneRecState).1)._notifications 1 = none :=
  C7_invoke_equiv_close oneRecState 1 "default" rfl

/-- C8: for an id absent from the registry, `DismissNotification`,
`CloseNotification` and `InvokeAction` each return the state unchanged with
an empty event trace; and after `CloseNotification(id)` on any state the id
is absent, so running any of the three on it afterwards is again a no-op. -/
theorem C8_unknown_id_noop (s t : NState) (id : Nat) (aid : String)
    (h : mapHas s._notifications id = false) :
    DismissNotification id s = (s, []) ∧
    CloseNotification id s = (s, []) ∧
    InvokeAction id aid s = (s, []) ∧
    DismissNotification id (CloseNotification id t).1 = ((CloseNotification id t).1, []) ∧
    CloseNotification id (CloseNotification id t).1 = ((CloseNotification id t).1, []) ∧
    InvokeAction id aid (CloseNotification id t).1 = ((CloseNotification id t).1, []) :=
  ⟨dismiss_absent id s h, close_absent id s h, invoke_absent id aid s h,
   dismiss_absent id _ (close_state_has_self_false id t),
   close_absent id _ (close_state_has_self_false id t),
   invoke_absent id aid _ (close_state_has_self_false id t)⟩

/-- Witness for C8: id `7` is absent from both concrete states. -/
theorem C8_unknown_id_noop_witness :
    DismissNotification 7 (freshState 3000) = (freshState 3000, []) ∧
    CloseNotification 7 (freshState 3000) = (freshState 3000, []) ∧
    InvokeAction 7 "a" (freshState 3000) = (freshState 3000, []) ∧
    DismissNotification 7 (CloseNotification 7 oneRecState).1
      = ((CloseNotification 7 oneRecState).1, []) ∧
    CloseNotification 7 (CloseNotification 7 oneRecState).1
      = ((CloseNotification 7 oneRecState).1, []) ∧
    InvokeAction 7 "a" (CloseNotification 7 oneRecState).1
      = ((CloseNotification 7 oneRecState).1, []) :=
  C8_unknown_id_noop (freshState 3000) oneRecState 7 "a" rfl

/-- C9: for a live id, `DismissNotification(id)` keeps the record in the
registry with its popup flag set false and every other field unchanged,
leaves every other entry and the counter/dnd/timeout fields unchanged, and
emits exactly `dismissed(id)` then `changed` — in particular no cache write
appears in its event trace. -/
theorem C9_dismiss_preserves (s : NState) (id : Nat) (n : Notification)
    (h : mapGet s._notifications id = some n) :
    mapGet (DismissNotification id s).1._notifications id = some { n with popup := false } ∧
    (∀ k, k ≠ id →
      mapGet (DismissNotification id s).1._notifications k = mapGet s._notifications k) ∧
    (DismissNotification id s).1._idCount = s._idCount ∧
    (DismissNotification id s).1._dnd = s._dnd ∧
    (DismissNotification id s).1._timeout = s._timeout ∧
    (DismissNotification id s).2 = [Event.dismissed id, Event.changed] ∧
    (∀ recs, Event.cacheWrite recs ∉ (DismissNotification id s).2) := by
  refine ⟨?_, ?_, ?_, ?_, ?_, ?_, ?_⟩ <;> simp only [DismissNotification, h]
  · exact mapGet_mapSet_self _ _ _
  · intro k hk
    exact mapGet_mapSet_ne _ _ _ _ hk
  · intro recs
    simp

/-- Witness for C9 at a concrete state with a live record under id `1`. -/
theorem C9_dismiss_preserves_witness :
    mapGet (DismissNotification 1 oneRecState).1._notifications 1
      = some { { sampleRecord with id := 1 } with popup := false } ∧
    (∀ k, k ≠ 1 →
      mapGet (DismissNotification 1 oneRecState).1._notifications k
        = mapGet oneRecState._notifications k) ∧
    (DismissNotification 1 oneRecState).1._idCount = oneRecState._idCount ∧
    (DismissNotification 1 oneRecState).1._dnd = oneRecState._dnd ∧
    (DismissNotification 1 oneRecState).1._timeout = oneRecState._timeout ∧
    (DismissNotification 1 oneRecState).2 = [Event.dismissed 1, Event.changed] ∧
    (∀ recs, Event.cacheWrite recs ∉ (DismissNotification 1 oneRecState).2) :=
  C9_dismiss_preserves oneRecState 1 { sampleRecord with id := 1 } rfl

/-- C10: a `Notify` call with a nonzero `replacesId` matching no live id
still stores the freshly built record under that caller-chosen id and
returns it without advancing the allocation counter; consequently in the
concrete sequence `c10r1` (replacesId 1 on a fresh registry), `c10r2`
(replacesId 0, returns 0), `c10r3` (replacesId 0), the third call returns
id `1` — equal to the first call's caller-supplied id, which is still live —
and silently overwrites that record. -/
theorem C10_caller_id_collision (s : NState) (rid : Nat) (fe : String → Bool)
    (now : Int) (an ai su bo : String) (acts : List String) (hints : Hints)
    (_habs : mapHas s._notifications rid = false) (hrid : rid ≠ 0) :
    ((Notify fe now an rid ai su bo acts hints s).ret = rid ∧
     (Notify fe now an rid ai su bo acts hints s).state._idCount = s._idCount ∧
     mapGet (Notify fe now an rid ai su bo acts hints s).state._notifications rid
       = some (buildRecord fe now an ai su bo acts hints rid s._dnd)) ∧
    (c10r1.state._idCount = 0 ∧
     mapHas c10r2.state._notifications 1 = true ∧
     c10r2.ret = 0 ∧
     c10r3.ret = 1 ∧
     mapGet c10r3.state._notifications 1
       = some (buildRecord noFile 0 "C" "i3" "S3" "b3" [] emptyHints 1 false) ∧
     mapGet c10r2.state._notifications 1 ≠ mapGet c10r3.state._notifications 1) := by
  constructor
  · refine ⟨?_, ?_, ?_⟩ <;>
      simp only [Notify, hrid, if_pos, ne_eq, not_false_eq_true, if_true, reduceIte]
    exact mapGet_mapSet_self _ _ _
  · refine ⟨rfl, rfl, rfl, rfl, rfl, ?_⟩
    decide

/-- Witness for C10: id `9` is absent from the fresh registry. -/
theorem C10_caller_id_collision_witness :
    ((Notify noFile 0 "W" 9 "i" "S" "b" [] emptyHints (freshState 3000)).ret = 9 ∧
     (Notify noFile 0 "W" 9 "i" "S" "b" [] emptyHints (freshState 3000)).state._idCount
       = (freshState 3000)._idCount ∧
     mapGet (Notify noFile 0 "W" 9 "i" "S" "b" [] emptyHints
         (freshState 3000)).state._notifications 9
       = some (buildRecord noFile 0 "W" "i" "S" "b" [] emptyHints 9 (freshState 3000)._dnd)) ∧
    (c10r1.state._idCount = 0 ∧
     mapHas c10r2.state._notifications 1 = true ∧
     c10r2.ret = 0 ∧
     c10r3.ret = 1 ∧
     mapGet c10r3.state._notifications 1
       = some (buildRecord noFile 0 "C" "i3" "S3" "b3" [] emptyHints 1 false) ∧
     mapGet c10r2.state._notifications 1 ≠ mapGet c10r3.state._notifications 1) :=
  C10_caller_id_collision (freshState 3000) 9 noFile 0 "W" "i" "S" "b" [] emptyHints rfl
    (by decide)

end Ags
